import Mathlib

/-!
Verification of the monetary-amount pipeline of the paymongo-backend
repository.

The JavaScript sources embedded here are:
  * `utils/helpers.js` — `calculateTaxedAmount` (the monetary engine);
  * `controllers/paymentController.js` — the amount computation inside
    `createPaymentIntent` (lines 68–96): either the Policy-B back-derivation
    from a caller-supplied discounted total, or the Policy-A call into the
    engine with the catalog price;
  * `services/paymongoService.js` — the inline minor-unit conversions in
    `createPaymentIntent` (payment-intent amount, line 42; checkout-session
    line-item amount, line 68) and `refundPayment` (line 250).

Numbers are modelled as exact rationals (ℚ).  JavaScript values that can be
strings, NaN or infinities (the `taxRate` configuration value read from
`process.env.TAX_RATE`, and intermediate results of the controller's
Policy-B arithmetic) are modelled by the `JSVal` type together with the
ECMAScript coercion rules that the embedded expressions exercise:
`Number(x)`, string concatenation for `number + string`, division with
string/NaN/Infinity operands, and `Number(x.toFixed(2))`.
-/

/-- Model of a JavaScript runtime value as it flows through the amount
pipeline: a finite number (exact rational), `NaN`, `Infinity`,
`-Infinity`, or a string. -/
inductive JSVal where
  | num : ℚ → JSVal
  | nan : JSVal
  | posInf : JSVal
  | negInf : JSVal
  | str : String → JSVal
deriving DecidableEq

/-- Numeric value of a list of decimal digit characters; `none` when the
list is empty or holds a non-digit. -/
def digitsToNat (cs : List Char) : Option Nat :=
  match cs with
  | [] => none
  | _ => cs.foldlM (fun acc c => if c.isDigit then some (acc * 10 + (c.toNat - 48)) else none) 0

/-- Decimal string to rational, covering the unsigned decimal literals the
pipeline exercises (for example "0.10" and "10.10"); `none` models a string
that `Number(·)` turns into NaN. -/
def parseDecimal (s : String) : Option ℚ :=
  match s.toList.splitOn '.' with
  | [w] => (digitsToNat w).map (fun n => (n : ℚ))
  | [w, f] =>
    match digitsToNat w, digitsToNat f with
    | some n, some m => some ((n : ℚ) + (m : ℚ) / (10 : ℚ) ^ f.length)
    | _, _ => none
  | _ => none

/-- ECMAScript `Number(x)` on a `JSVal`: numbers and infinities pass
through, strings are parsed (NaN when malformed). -/
def jsToNumber : JSVal → JSVal
  | JSVal.num q => JSVal.num q
  | JSVal.nan => JSVal.nan
  | JSVal.posInf => JSVal.posInf
  | JSVal.negInf => JSVal.negInf
  | JSVal.str s =>
    match parseDecimal s with
    | some q => JSVal.num q
    | none => JSVal.nan

/-- JavaScript `Math.round`: round half toward positive infinity. -/
def jsRound (q : ℚ) : ℤ := ⌊q + 1 / 2⌋

/-- JavaScript `Number(x.toFixed(2))` on an exact rational: round to 2
fractional digits, ties toward the larger value (the ECMAScript `toFixed`
rule "pick the larger n"). -/
def round2 (q : ℚ) : ℚ := ((⌊q * 100 + 1 / 2⌋ : ℤ) : ℚ) / 100

/-- `helpers.js` lines 45–46: `const rate = Number(taxRate); const safeRate
= Number.isFinite(rate) ? rate : 0;`. -/
def safeRate (taxRate : JSVal) : ℚ :=
  match jsToNumber taxRate with
  | JSVal.num q => q
  | _ => 0

/-- Output record of `calculateTaxedAmount` in `utils/helpers.js`. -/
structure TaxedAmount where
  baseAmount : ℚ
  taxAmount : ℚ
  totalAmount : ℚ
  baseCentavos : ℤ
  taxCentavos : ℤ
  totalCentavos : ℤ
  taxRate : ℚ

/-- `utils/helpers.js` `calculateTaxedAmount(amount, taxRate)` (lines
44–67): coerce the rate, keep 2-decimal amounts via `toFixed(2)`, convert
to centavos at the final step with `Math.floor`, and sum the two floored
parts for the total. -/
def calculateTaxedAmount (amount : ℚ) (taxRate : JSVal) : TaxedAmount :=
  let rate := safeRate taxRate
  let baseAmount := round2 amount
  let taxAmount := round2 (baseAmount * rate)
  let totalAmount := round2 (baseAmount + taxAmount)
  let baseCentavos := ⌊baseAmount * 100⌋
  let taxCentavos := ⌊taxAmount * 100⌋
  let totalCentavos := baseCentavos + taxCentavos
  ⟨baseAmount, taxAmount, totalAmount, baseCentavos, taxCentavos, totalCentavos, rate⟩

/-- The controller expression `(1 + taxRate)`: numeric addition when the
rate is a number, string concatenation with `ToString(1) = "1"` when the
rate is a string (the case of a configured `process.env.TAX_RATE`). -/
def onePlus : JSVal → JSVal
  | JSVal.num q => JSVal.num (1 + q)
  | JSVal.nan => JSVal.nan
  | JSVal.posInf => JSVal.posInf
  | JSVal.negInf => JSVal.negInf
  | JSVal.str s => JSVal.str ("1" ++ s)

/-- JavaScript division `a / d` of a finite number by a `JSVal`, after
coercing the divisor with `Number(·)`. -/
def jsDiv (a : ℚ) (d : JSVal) : JSVal :=
  match jsToNumber d with
  | JSVal.num q =>
    if q = 0 then (if a = 0 then JSVal.nan else (if 0 < a then JSVal.posInf else JSVal.negInf))
    else JSVal.num (a / q)
  | JSVal.nan => JSVal.nan
  | JSVal.posInf => JSVal.num 0
  | JSVal.negInf => JSVal.num 0
  | JSVal.str _ => JSVal.nan

/-- JavaScript subtraction `a - b` of a `JSVal` from a finite number. -/
def jsSubQ (a : ℚ) (b : JSVal) : JSVal :=
  match jsToNumber b with
  | JSVal.num q => JSVal.num (a - q)
  | JSVal.nan => JSVal.nan
  | JSVal.posInf => JSVal.negInf
  | JSVal.negInf => JSVal.posInf
  | JSVal.str _ => JSVal.nan

/-- JavaScript `Number(x.toFixed(2))` lifted to `JSVal`: NaN and the
infinities survive the round trip through their string forms. -/
def round2V : JSVal → JSVal
  | JSVal.num q => JSVal.num (round2 q)
  | v => v

/-- The three amounts computed by `controllers/paymentController.js`
`createPaymentIntent` (lines 68–96). -/
structure ControllerAmounts where
  finalAmount : JSVal
  baseAmount : JSVal
  taxAmount : JSVal

/-- `controllers/paymentController.js` lines 71–96: when the frontend
supplied a truthy positive `amount` different from the catalog price, the
Policy-B branch back-derives `baseAmount = Number((finalAmount / (1 +
taxRate)).toFixed(2))` and `taxAmount = Number((finalAmount -
baseAmount).toFixed(2))`; otherwise the catalog price goes through the
engine `calculateTaxedAmount` and each output is re-fixed to 2 decimals.
`taxRate` is `process.env.TAX_RATE ?? 0.10`, hence a string whenever the
environment variable is set. -/
def createPaymentIntentAmounts (amount : Option ℚ) (productAmount : ℚ) (taxRate : JSVal) :
    ControllerAmounts :=
  match amount with
  | some a =>
    if a ≠ 0 ∧ 0 < a ∧ a ≠ productAmount then
      let finalAmount := round2 a
      let baseAmount := round2V (jsDiv finalAmount (onePlus taxRate))
      let taxAmount := round2V (jsSubQ finalAmount baseAmount)
      ⟨JSVal.num finalAmount, baseAmount, taxAmount⟩
    else
      let taxed := calculateTaxedAmount productAmount taxRate
      ⟨JSVal.num (round2 taxed.totalAmount), JSVal.num (round2 taxed.baseAmount),
        JSVal.num (round2 taxed.taxAmount)⟩
  | none =>
    let taxed := calculateTaxedAmount productAmount taxRate
    ⟨JSVal.num (round2 taxed.totalAmount), JSVal.num (round2 taxed.baseAmount),
      JSVal.num (round2 taxed.taxAmount)⟩

/-- `services/paymongoService.js` line 42: the integer amount placed into
the payment-intent request is `Math.round(Math.round(amount * 100))`. -/
def paymongoIntentAmount (amount : ℚ) : ℤ := jsRound ((jsRound (amount * 100) : ℤ) : ℚ)

/-- `services/paymongoService.js` line 68: the checkout-session line-item
amount is `Math.round(amount * 100)`. -/
def paymongoLineItemAmount (amount : ℚ) : ℤ := jsRound (amount * 100)

/-- `services/paymongoService.js` `refundPayment` line 250: the refund
amount sent is `Math.round(amount * 100)`. -/
def refundPaymentAmount (amount : ℚ) : ℤ := jsRound (amount * 100)

/-- Modelled from the spec: the step-4 / FIX_ROUNDING_ISSUE.md conversion
policy, `Math.floor(amount * 100)` — the conversion the spec says is the
one actually used.  Kept separate so the code's `Math.round`-based
conversions can be compared against it. -/
def specFloorMinorUnits (amount : ℚ) : ℤ := ⌊amount * 100⌋

/- Basic evaluation lemmas for the engine record. -/

theorem calc_baseAmount (a : ℚ) (r : JSVal) :
    (calculateTaxedAmount a r).baseAmount = round2 a := rfl

theorem calc_taxAmount (a : ℚ) (r : JSVal) :
    (calculateTaxedAmount a r).taxAmount = round2 (round2 a * safeRate r) := rfl

theorem calc_totalAmount (a : ℚ) (r : JSVal) :
    (calculateTaxedAmount a r).totalAmount
      = round2 (round2 a + round2 (round2 a * safeRate r)) := rfl

theorem calc_baseCentavos (a : ℚ) (r : JSVal) :
    (calculateTaxedAmount a r).baseCentavos = ⌊round2 a * 100⌋ := rfl

theorem calc_taxCentavos (a : ℚ) (r : JSVal) :
    (calculateTaxedAmount a r).taxCentavos = ⌊round2 (round2 a * safeRate r) * 100⌋ := rfl

theorem calc_totalCentavos (a : ℚ) (r : JSVal) :
    (calculateTaxedAmount a r).totalCentavos
      = ⌊round2 a * 100⌋ + ⌊round2 (round2 a * safeRate r) * 100⌋ := rfl

theorem calc_taxRate (a : ℚ) (r : JSVal) :
    (calculateTaxedAmount a r).taxRate = safeRate r := rfl

/- Arithmetic facts about `round2` and `jsRound`. -/

theorem round2_mul_hundred (q : ℚ) : round2 q * 100 = ((⌊q * 100 + 1 / 2⌋ : ℤ) : ℚ) := by
  unfold round2
  rw [div_mul_cancel₀]
  norm_num

theorem floor_cast_add_half (n : ℤ) : ⌊((n : ℚ)) + 1 / 2⌋ = n := by
  rw [Int.floor_int_add]
  norm_num

theorem floor_round2_mul_hundred (q : ℚ) : ⌊round2 q * 100⌋ = ⌊q * 100 + 1 / 2⌋ := by
  rw [round2_mul_hundred, Int.floor_intCast]

theorem jsRound_round2_mul_hundred (q : ℚ) : jsRound (round2 q * 100) = ⌊q * 100 + 1 / 2⌋ := by
  unfold jsRound
  rw [round2_mul_hundred, floor_cast_add_half]

/-- The engine's rounded total and its summed centavos agree: `Math.round`
of `totalAmount * 100` is exactly `baseCentavos + taxCentavos`. -/
theorem engine_round_total_eq_sum (a : ℚ) (r : JSVal) :
    jsRound ((calculateTaxedAmount a r).totalAmount * 100)
      = (calculateTaxedAmount a r).totalCentavos := by
  rw [calc_totalAmount, calc_totalCentavos, jsRound_round2_mul_hundred, add_mul,
    round2_mul_hundred a, round2_mul_hundred (round2 a * safeRate r),
    ← Int.cast_add, floor_cast_add_half, Int.floor_intCast, Int.floor_intCast]


/- Evaluation helpers: kernel reduction of ℚ arithmetic is not available to
`decide`, so concrete floors and `round2` values are established through
`Int.floor_eq_iff` and `norm_num`. -/

theorem floor_eval (r : ℚ) (n : ℤ) (h₁ : (n : ℚ) ≤ r) (h₂ : r < (n : ℚ) + 1) : ⌊r⌋ = n :=
  Int.floor_eq_iff.mpr ⟨h₁, h₂⟩

theorem round2_eval (q : ℚ) (n : ℤ) (t : ℚ) (h₁ : (n : ℚ) ≤ q * 100 + 1 / 2)
    (h₂ : q * 100 + 1 / 2 < (n : ℚ) + 1) (h₃ : (n : ℚ) / 100 = t) : round2 q = t := by
  unfold round2
  rw [floor_eval (q * 100 + 1 / 2) n h₁ h₂, h₃]

theorem round2_two_dec (n : ℤ) : round2 ((n : ℚ) / 100) = (n : ℚ) / 100 := by
  unfold round2
  rw [div_mul_cancel₀ _ (by norm_num : (100 : ℚ) ≠ 0), floor_cast_add_half]

theorem floor_two_dec (n : ℤ) : ⌊(n : ℚ) / 100 * 100⌋ = n := by
  rw [div_mul_cancel₀ _ (by norm_num : (100 : ℚ) ≠ 0), Int.floor_intCast]

/-- Full evaluation of the engine given the two floor computations. -/
theorem calculateTaxedAmount_eval (a rq : ℚ) (r : JSVal) (nb nt : ℤ)
    (hr : safeRate r = rq)
    (hb : ⌊a * 100 + 1 / 2⌋ = nb)
    (ht : ⌊(nb : ℚ) / 100 * rq * 100 + 1 / 2⌋ = nt) :
    (calculateTaxedAmount a r).baseAmount = (nb : ℚ) / 100 ∧
    (calculateTaxedAmount a r).taxAmount = (nt : ℚ) / 100 ∧
    (calculateTaxedAmount a r).totalAmount = ((nb + nt : ℤ) : ℚ) / 100 ∧
    (calculateTaxedAmount a r).baseCentavos = nb ∧
    (calculateTaxedAmount a r).taxCentavos = nt ∧
    (calculateTaxedAmount a r).totalCentavos = nb + nt := by
  have hbase : round2 a = (nb : ℚ) / 100 := by
    unfold round2
    rw [hb]
  have htax : round2 ((nb : ℚ) / 100 * rq) = (nt : ℚ) / 100 := by
    unfold round2
    rw [ht]
  have htot : round2 ((nb : ℚ) / 100 + (nt : ℚ) / 100) = ((nb + nt : ℤ) : ℚ) / 100 := by
    rw [div_add_div_same, ← Int.cast_add, round2_two_dec]
  refine ⟨?_, ?_, ?_, ?_, ?_, ?_⟩
  · rw [calc_baseAmount, hbase]
  · rw [calc_taxAmount, hbase, hr, htax]
  · rw [calc_totalAmount, hbase, hr, htax, htot]
  · rw [calc_baseCentavos, hbase, floor_two_dec]
  · rw [calc_taxCentavos, hbase, hr, htax, floor_two_dec]
  · rw [calc_totalCentavos, hbase, hr, htax, floor_two_dec, floor_two_dec]

/- Evaluation helpers for the controller branches. -/

theorem policyB_fields (a pa : ℚ) (r : JSVal) (h : a ≠ 0 ∧ 0 < a ∧ a ≠ pa) :
    (createPaymentIntentAmounts (some a) pa r).finalAmount = JSVal.num (round2 a) ∧
    (createPaymentIntentAmounts (some a) pa r).baseAmount
      = round2V (jsDiv (round2 a) (onePlus r)) ∧
    (createPaymentIntentAmounts (some a) pa r).taxAmount
      = round2V (jsSubQ (round2 a) (round2V (jsDiv (round2 a) (onePlus r)))) := by
  simp only [createPaymentIntentAmounts, if_pos h]
  exact ⟨trivial, trivial, trivial⟩

theorem policyA_fields (pa : ℚ) (r : JSVal) :
    (createPaymentIntentAmounts none pa r).finalAmount
      = JSVal.num (round2 (calculateTaxedAmount pa r).totalAmount) ∧
    (createPaymentIntentAmounts none pa r).baseAmount
      = JSVal.num (round2 (calculateTaxedAmount pa r).baseAmount) ∧
    (createPaymentIntentAmounts none pa r).taxAmount
      = JSVal.num (round2 (calculateTaxedAmount pa r).taxAmount) :=
  ⟨rfl, rfl, rfl⟩

theorem jsDiv_num (a q : ℚ) (hq : q ≠ 0) (d : JSVal) (hd : jsToNumber d = JSVal.num q) :
    jsDiv a d = JSVal.num (a / q) := by
  unfold jsDiv
  rw [hd]
  exact if_neg hq

theorem jsSubQ_num (a q : ℚ) : jsSubQ a (JSVal.num q) = JSVal.num (a - q) := rfl

theorem round2V_num (q : ℚ) : round2V (JSVal.num q) = JSVal.num (round2 q) := rfl


/- Claim theorems. -/

/-- C1: the claim says the minor-unit value sent to the payment processor is
obtained by flooring the decimal amount times 100, exactly once, inside the
monetary engine.  The code instead converts inline in
`services/paymongoService.js` with `Math.round` (doubly so for the
payment-intent amount).  At amount 1.005 the code sends 101 centavos for
both the payment-intent and the line-item amount while the floor policy
documented in FIX_ROUNDING_ISSUE.md produces 100. -/
theorem intentAmount_uses_round_not_floor :
    paymongoIntentAmount 1.005 = 101 ∧ paymongoLineItemAmount 1.005 = 101 ∧
    specFloorMinorUnits 1.005 = 100 := by
  refine ⟨?_, ?_, ?_⟩
  · unfold paymongoIntentAmount jsRound
    rw [floor_eval ((1.005 : ℚ) * 100 + 1 / 2) 101 (by norm_num) (by norm_num),
      floor_cast_add_half]
  · unfold paymongoLineItemAmount jsRound
    rw [floor_eval ((1.005 : ℚ) * 100 + 1 / 2) 101 (by norm_num) (by norm_num)]
  · unfold specFloorMinorUnits
    rw [floor_eval ((1.005 : ℚ) * 100) 100 (by norm_num) (by norm_num)]

/-- C2: for every positive nominal amount and every tax-rate value, the
engine's `totalCentavos` never exceeds `Math.round(totalAmount * 100)`: the
minor-unit amount never implies a decimal amount greater than
`totalAmount`. -/
theorem totalCentavos_le_round_totalAmount (a : ℚ) (r : JSVal) (_h : 0 < a) :
    (calculateTaxedAmount a r).totalCentavos
      ≤ jsRound ((calculateTaxedAmount a r).totalAmount * 100) :=
  le_of_eq (engine_round_total_eq_sum a r).symm

/-- Witness for C2 at nominalAmount 100, taxRate 0.10. -/
theorem totalCentavos_le_round_totalAmount_witness :
    (0 : ℚ) < 100 ∧
    (calculateTaxedAmount 100 (JSVal.num 0.10)).totalCentavos
      ≤ jsRound ((calculateTaxedAmount 100 (JSVal.num 0.10)).totalAmount * 100) :=
  ⟨by norm_num, totalCentavos_le_round_totalAmount 100 (JSVal.num 0.10) (by norm_num)⟩

/-- C3: for every nominal amount and tax rate, `totalCentavos` is exactly
the sum of the two independently floored parts `baseCentavos` and
`taxCentavos` (it is defined as that sum, never floored from
`totalAmount`). -/
theorem totalCentavos_eq_base_add_tax (a : ℚ) (r : JSVal) :
    (calculateTaxedAmount a r).totalCentavos
      = (calculateTaxedAmount a r).baseCentavos + (calculateTaxedAmount a r).taxCentavos := rfl

/-- C4: the claim says the refund conversion uses floor, like the original
charge.  The code's `refundPayment` uses `Math.round(amount * 100)`: at a
recorded total of 999.005 it sends 99901 centavos while the floor policy
prescribed by FIX_ROUNDING_ISSUE.md gives 99900. -/
theorem refundAmount_uses_round_not_floor :
    refundPaymentAmount 999.005 = 99901 ∧ specFloorMinorUnits 999.005 = 99900 := by
  constructor
  · unfold refundPaymentAmount jsRound
    rw [floor_eval ((999.005 : ℚ) * 100 + 1 / 2) 99901 (by norm_num) (by norm_num)]
  · unfold specFloorMinorUnits
    rw [floor_eval ((999.005 : ℚ) * 100) 99900 (by norm_num) (by norm_num)]

/-- C5 counterexample: in the controller's Policy-B branch a non-finite
taxRate is NOT coerced to 0 — with `taxRate = NaN` and caller total 100 the
computed `taxAmount` is NaN, not 0.00, refuting the claim that both
policies coerce the rate. -/
theorem policyB_nan_taxAmount_counterexample :
    (createPaymentIntentAmounts (some 100) 5000 JSVal.nan).taxAmount ≠ JSVal.num 0 := by
  obtain ⟨-, -, ht⟩ := policyB_fields 100 5000 JSVal.nan
    ⟨by norm_num, by norm_num, by norm_num⟩
  have hnan :
      round2V (jsSubQ (round2 100) (round2V (jsDiv (round2 100) (onePlus JSVal.nan))))
        = JSVal.nan := rfl
  rw [ht, hnan]
  exact fun hcontra => JSVal.noConfusion hcontra

/-- C5 amended: in the engine `calculateTaxedAmount` (the Policy-A path), a
taxRate that does not coerce to a finite number is normalized to 0: the
output `taxAmount` is 0.00 and the output `taxRate` field is 0. -/
theorem engine_nonfinite_taxRate_coerced (a : ℚ) (r : JSVal)
    (h : jsToNumber r = JSVal.nan ∨ jsToNumber r = JSVal.posInf
      ∨ jsToNumber r = JSVal.negInf) :
    (calculateTaxedAmount a r).taxAmount = 0 ∧ (calculateTaxedAmount a r).taxRate = 0 := by
  have hs : safeRate r = 0 := by
    unfold safeRate
    rcases h with h | h | h <;> rw [h]
  constructor
  · rw [calc_taxAmount, hs, mul_zero]
    exact round2_eval 0 0 0 (by norm_num) (by norm_num) (by norm_num)
  · rw [calc_taxRate, hs]

/-- Witness for the amended C5 at nominalAmount 100, taxRate NaN. -/
theorem engine_nonfinite_taxRate_coerced_witness :
    (jsToNumber JSVal.nan = JSVal.nan ∨ jsToNumber JSVal.nan = JSVal.posInf
      ∨ jsToNumber JSVal.nan = JSVal.negInf) ∧
    (calculateTaxedAmount 100 JSVal.nan).taxAmount = 0 ∧
    (calculateTaxedAmount 100 JSVal.nan).taxRate = 0 :=
  ⟨Or.inl rfl, engine_nonfinite_taxRate_coerced 100 JSVal.nan (Or.inl rfl)⟩

/-- C6: under Policy B (caller-supplied total 5500.50, numeric taxRate
0.10) the controller derives baseAmount 5000.45 and taxAmount 500.05; the
step-4 floors of those parts sum to 550050, and the amount the service
sends for the final total is 550050, not 550100. -/
theorem policyB_example_5500_50 :
    (createPaymentIntentAmounts (some 5500.50) 5000 (JSVal.num 0.10)).baseAmount
      = JSVal.num 5000.45 ∧
    (createPaymentIntentAmounts (some 5500.50) 5000 (JSVal.num 0.10)).taxAmount
      = JSVal.num 500.05 ∧
    specFloorMinorUnits 5000.45 + specFloorMinorUnits 500.05 = 550050 ∧
    paymongoIntentAmount 5500.50 = 550050 ∧ (550050 : ℤ) ≠ 550100 := by
  obtain ⟨-, hb, ht⟩ := policyB_fields 5500.50 5000 (JSVal.num 0.10)
    ⟨by norm_num, by norm_num, by norm_num⟩
  have hfa : round2 (5500.50 : ℚ) = 5500.50 :=
    round2_eval _ 550050 _ (by norm_num) (by norm_num) (by norm_num)
  have hdiv : jsDiv (5500.50 : ℚ) (onePlus (JSVal.num 0.10))
      = JSVal.num (5500.50 / (1 + 0.10)) :=
    jsDiv_num _ _ (by norm_num) _ rfl
  have hb2 : round2 ((5500.50 : ℚ) / (1 + 0.10)) = 5000.45 :=
    round2_eval _ 500045 _ (by norm_num) (by norm_num) (by norm_num)
  have ht2 : round2 ((5500.50 : ℚ) - 5000.45) = 500.05 :=
    round2_eval _ 50005 _ (by norm_num) (by norm_num) (by norm_num)
  refine ⟨?_, ?_, ?_, ?_, by norm_num⟩
  · rw [hb, hfa, hdiv, round2V_num, hb2]
  · rw [ht, hfa, hdiv, round2V_num, hb2, jsSubQ_num, round2V_num, ht2]
  · unfold specFloorMinorUnits
    rw [floor_eval ((5000.45 : ℚ) * 100) 500045 (by norm_num) (by norm_num),
      floor_eval ((500.05 : ℚ) * 100) 50005 (by norm_num) (by norm_num)]
    norm_num
  · unfold paymongoIntentAmount jsRound
    rw [floor_eval ((5500.50 : ℚ) * 100 + 1 / 2) 550050 (by norm_num) (by norm_num),
      floor_cast_add_half]

/-- C7: with taxRate 0, nominal 999.01 gives base 999.01, tax 0.00, total
999.01, totalCentavos 99901; and nominal 3500.99 gives totalCentavos
350099, never 350100. -/
theorem engine_taxzero_edge_cases :
    (calculateTaxedAmount 999.01 (JSVal.num 0)).baseAmount = 999.01 ∧
    (calculateTaxedAmount 999.01 (JSVal.num 0)).taxAmount = 0 ∧
    (calculateTaxedAmount 999.01 (JSVal.num 0)).totalAmount = 999.01 ∧
    (calculateTaxedAmount 999.01 (JSVal.num 0)).totalCentavos = 99901 ∧
    (calculateTaxedAmount 3500.99 (JSVal.num 0)).totalCentavos = 350099 ∧
    (350099 : ℤ) ≠ 350100 := by
  obtain ⟨h1, h2, h3, -, -, h6⟩ := calculateTaxedAmount_eval 999.01 0 (JSVal.num 0) 99901 0 rfl
    (floor_eval _ _ (by norm_num) (by norm_num)) (floor_eval _ _ (by norm_num) (by norm_num))
  obtain ⟨-, -, -, -, -, h7⟩ := calculateTaxedAmount_eval 3500.99 0 (JSVal.num 0) 350099 0 rfl
    (floor_eval _ _ (by norm_num) (by norm_num)) (floor_eval _ _ (by norm_num) (by norm_num))
  refine ⟨?_, ?_, ?_, ?_, ?_, by norm_num⟩
  · rw [h1]; norm_num
  · rw [h2]; norm_num
  · rw [h3]; norm_num
  · rw [h6]
    norm_num
  · rw [h7]
    norm_num

/-- C8: under Policy A with nominal 5000.00 and taxRate 0.10 the engine
gives base 5000.00, tax 500.00, total 5500.00 and totalCentavos 550000,
and the controller's catalog-price path reports the same three decimal
amounts. -/
theorem policyA_example_5000 :
    (calculateTaxedAmount 5000 (JSVal.num 0.10)).baseAmount = 5000 ∧
    (calculateTaxedAmount 5000 (JSVal.num 0.10)).taxAmount = 500 ∧
    (calculateTaxedAmount 5000 (JSVal.num 0.10)).totalAmount = 5500 ∧
    (calculateTaxedAmount 5000 (JSVal.num 0.10)).totalCentavos = 550000 ∧
    (createPaymentIntentAmounts none 5000 (JSVal.num 0.10)).finalAmount = JSVal.num 5500 ∧
    (createPaymentIntentAmounts none 5000 (JSVal.num 0.10)).baseAmount = JSVal.num 5000 ∧
    (createPaymentIntentAmounts none 5000 (JSVal.num 0.10)).taxAmount = JSVal.num 500 := by
  obtain ⟨h1, h2, h3, -, -, h6⟩ :=
    calculateTaxedAmount_eval 5000 0.10 (JSVal.num 0.10) 500000 50000 rfl
      (floor_eval _ _ (by norm_num) (by norm_num)) (floor_eval _ _ (by norm_num) (by norm_num))
  obtain ⟨hf, hbb, htt⟩ := policyA_fields 5000 (JSVal.num 0.10)
  have e1 : ((500000 : ℤ) : ℚ) / 100 = 5000 := by norm_num
  have e2 : ((50000 : ℤ) : ℚ) / 100 = 500 := by norm_num
  have e3 : ((500000 + 50000 : ℤ) : ℚ) / 100 = 5500 := by norm_num
  have r1 : round2 (5000 : ℚ) = 5000 :=
    round2_eval _ 500000 _ (by norm_num) (by norm_num) (by norm_num)
  have r2 : round2 (500 : ℚ) = 500 :=
    round2_eval _ 50000 _ (by norm_num) (by norm_num) (by norm_num)
  have r3 : round2 (5500 : ℚ) = 5500 :=
    round2_eval _ 550000 _ (by norm_num) (by norm_num) (by norm_num)
  refine ⟨?_, ?_, ?_, ?_, ?_, ?_, ?_⟩
  · rw [h1, e1]
  · rw [h2, e2]
  · rw [h3, e3]
  · rw [h6]
    norm_num
  · rw [hf, h3, e3, r3]
  · rw [hbb, h1, e1, r1]
  · rw [htt, h2, e2, r2]

/-- C9: when `process.env.TAX_RATE` is set (so taxRate is the string
"0.10"), the Policy-B expression `(1 + taxRate)` concatenates to the string
"10.10", and the controller's baseAmount becomes
`round2(callerTotal / 10.1)` instead of `round2(callerTotal / 1.1)`. -/
theorem taxRate_env_string_policyB (a pa : ℚ) (h0 : a ≠ 0) (h1 : 0 < a) (h2 : a ≠ pa) :
    (createPaymentIntentAmounts (some a) pa (JSVal.str "0.10")).baseAmount
      = JSVal.num (round2 (round2 a / (101 / 10))) := by
  obtain ⟨-, hb, -⟩ := policyB_fields a pa (JSVal.str "0.10") ⟨h0, h1, h2⟩
  have hd : jsToNumber (onePlus (JSVal.str "0.10")) = JSVal.num ((101 : ℚ) / 10) := by
    have h' : jsToNumber (onePlus (JSVal.str "0.10"))
        = JSVal.num ((10 : ℚ) + (10 : ℚ) / (10 : ℚ) ^ 2) := rfl
    rw [h']
    exact congrArg JSVal.num (by norm_num)
  rw [hb, jsDiv_num (round2 a) ((101 : ℚ) / 10) (by norm_num) _ hd, round2V_num]

/-- Witness for C9 at callerTotal 100, catalog price 5000: the divisor is
10.1, giving baseAmount 9.90, while division by 1.1 would give 90.91. -/
theorem taxRate_env_string_policyB_witness :
    ((100 : ℚ) ≠ 0 ∧ (0 : ℚ) < 100 ∧ (100 : ℚ) ≠ 5000) ∧
    (createPaymentIntentAmounts (some 100) 5000 (JSVal.str "0.10")).baseAmount
      = JSVal.num (round2 (round2 100 / (101 / 10))) ∧
    round2 (round2 (100 : ℚ) / (101 / 10)) = 9.9 ∧
    round2 (round2 (100 : ℚ) / (11 / 10)) = 90.91 := by
  have h100 : round2 (100 : ℚ) = 100 :=
    round2_eval _ 10000 _ (by norm_num) (by norm_num) (by norm_num)
  refine ⟨⟨by norm_num, by norm_num, by norm_num⟩,
    taxRate_env_string_policyB 100 5000 (by norm_num) (by norm_num) (by norm_num), ?_, ?_⟩
  · rw [h100]
    exact round2_eval _ 990 _ (by norm_num) (by norm_num) (by norm_num)
  · rw [h100]
    exact round2_eval _ 9091 _ (by norm_num) (by norm_num) (by norm_num)

/-- C10: the charge conversion (payment-intent amount) and the refund
conversion compute the identical integer for every finite decimal amount:
`Math.round(Math.round(a*100))` collapses to `Math.round(a*100)`, so a
refund for the same recorded total equals the charged amount exactly. -/
theorem intentAmount_eq_refundAmount (a : ℚ) :
    paymongoIntentAmount a = refundPaymentAmount a := by
  unfold paymongoIntentAmount refundPaymentAmount jsRound
  rw [floor_cast_add_half]
